import Mathlib

set_option maxRecDepth 8000

/-!
Verification of the mox autoconfiguration HTTP handlers
(src/http/autoconf.go) against their natural-language specification.

The Go handlers are shallowly embedded as pure Lean functions.  External
collaborators (the dns/smtp parsers, the admin configuration lookup, the
MobileConfig profile builder) are passed in as function parameters, so the
theorems quantify over every possible behaviour of those collaborators.
Machine side effects are made explicit: each handler returns its HTTP
outcome together with the list of metric-counter increments it performs.
-/

namespace Mox

/-- Modelled from the spec: dns.Domain, the canonical (ASCII + Unicode)
representation of a DNS domain (the dns package is outside the provided
source slice; the handlers only read and rewrite its two string fields). -/
structure Domain where
  ASCII : String
  Unicode : String
  deriving DecidableEq

/-- Modelled from the spec: smtp.Address as consumed by the handlers — a
localpart plus the owning domain (the smtp package is outside the provided
source slice; the handlers only read the Domain field). -/
structure Address where
  Localpart : String
  Domain : Mox.Domain
  deriving DecidableEq

/-- Modelled from the spec: one endpoint of admin.ClientConfig as read by the
handlers: host, port, TLS mode and the alternate-port (HTTPS/443) flag.
admin.TLSMode is an integer-backed enum in Go, so it is embedded as `Nat`:
values outside the three named constants are representable, exactly as in Go. -/
structure ClientConfigService where
  Host : Mox.Domain
  Port : Nat
  TLSMode : Nat
  EnabledOnHTTPS : Bool
  deriving DecidableEq

/-- Modelled from the spec: admin.ClientConfig with its IMAP and Submission
endpoints. -/
structure ClientConfig where
  IMAP : ClientConfigService
  Submission : ClientConfigService
  deriving DecidableEq

/-- Modelled from the spec: the canonical TLS mode `Immediate`. -/
def TLSModeImmediate : Nat := 0

/-- Modelled from the spec: the canonical TLS mode `StartTLS`. -/
def TLSModeSTARTTLS : Nat := 1

/-- Modelled from the spec: the canonical TLS mode `None`. -/
def TLSModeNone : Nat := 2

/-- src/http/autoconf.go lines 90-101: the Thunderbird socketType mapping.
Mirrors the Go multi-value return `(string, error)`; the second component is
`none` when the Go error is nil. -/
def socketType (tlsMode : Nat) : String × Option String :=
  if tlsMode = TLSModeImmediate then ("SSL", none)
  else if tlsMode = TLSModeSTARTTLS then ("STARTTLS", none)
  else if tlsMode = TLSModeNone then ("plain", none)
  else ("", some ("unknown tls mode " ++ toString tlsMode))

/-- src/http/autoconf.go lines 220-231: the Microsoft ssl/encryption mapping.
Mirrors the Go multi-value return `(string, string, error)`. -/
def tlsmode (tlsMode : Nat) : String × String × Option String :=
  if tlsMode = TLSModeImmediate then ("on", "TLS", none)
  else if tlsMode = TLSModeSTARTTLS then ("on", "", none)
  else if tlsMode = TLSModeNone then ("off", "", none)
  else ("", "", some ("unknown tls mode " ++ toString tlsMode))

/-- src/http/autoconf.go lines 303-310: one incomingServer element of the
autoconfig XML document (the Go field `Type` is spelled `type` here). -/
structure incomingServer where
  type : String
  Hostname : String
  Port : Nat
  SocketType : String
  Username : String
  Authentication : String
  deriving DecidableEq

/-- src/http/autoconf.go lines 311-318: one outgoingServer element of the
autoconfig XML document. -/
structure outgoingServer where
  type : String
  Hostname : String
  Port : Nat
  SocketType : String
  Username : String
  Authentication : String
  deriving DecidableEq

/-- src/http/autoconf.go lines 323-331: the emailProvider element. -/
structure EmailProvider where
  ID : String
  Domain : String
  DisplayName : String
  DisplayShortName : String
  IncomingServers : List incomingServer
  OutgoingServers : List outgoingServer
  deriving DecidableEq

/-- src/http/autoconf.go lines 319-336: the autoconfig response document
(clientConfigUpdate is flattened to its single URL attribute). -/
structure autoconfigResponse where
  Version : String
  EmailProvider : Mox.EmailProvider
  ClientConfigUpdateURL : String
  deriving DecidableEq

/-- Outcome of the autoconfig handler: either `http.Error` with a status and
body, or a successfully synthesized document. -/
inductive AutoconfResult where
  | httpError (status : Nat) (body : String)
  | doc (resp : autoconfigResponse)
  deriving DecidableEq

/-- One increment of a prometheus counter vector: the metric name and the
value supplied for its "domain" label. -/
structure MetricInc where
  metric : String
  label : String
  deriving DecidableEq

/-- strings.TrimPrefix as called at src/http/autoconf.go lines 79-80: drops
`p` from the front of `s` when present, otherwise returns `s` unchanged. -/
def dropPre (s p : String) : String :=
  if p.data.isPrefixOf s.data then ⟨s.data.drop p.data.length⟩ else s

/-- src/http/autoconf.go lines 116-172: the document built once the domain,
display identity and client configuration are in hand, with the per-endpoint
socketType strings already mapped. -/
def autoconfDoc (email : String) (domain : Domain) (config : ClientConfig)
    (imapTLS submissionTLS : String) : autoconfigResponse :=
  { Version := "1.1"
    EmailProvider :=
      { ID := domain.ASCII
        Domain := domain.ASCII
        DisplayName := email
        DisplayShortName := domain.ASCII
        IncomingServers :=
          [⟨"imap", config.IMAP.Host.ASCII, config.IMAP.Port, imapTLS, email,
            "password-encrypted"⟩]
          ++ (if config.IMAP.EnabledOnHTTPS then
                [⟨"imap", config.IMAP.Host.ASCII, 443,
                  (socketType TLSModeImmediate).1, email, "password-encrypted"⟩]
              else [])
        OutgoingServers :=
          [⟨"smtp", config.Submission.Host.ASCII, config.Submission.Port,
            submissionTLS, email, "password-encrypted"⟩]
          ++ (if config.Submission.EnabledOnHTTPS then
                [⟨"smtp", config.Submission.Host.ASCII, 443,
                  (socketType TLSModeImmediate).1, email, "password-encrypted"⟩]
              else []) }
    ClientConfigUpdateURL :=
      "https://autoconfig." ++ domain.ASCII ++ "/mail/config-v1.1.xml" }

/-- src/http/autoconf.go lines 103-179: after input normalization, resolve the
client configuration and map both endpoints' TLS modes, failing with 400 on
the first non-nil error, else synthesize the document. -/
def autoconfBuild (email : String) (domain : Domain)
    (configResult : Except String ClientConfig) : AutoconfResult :=
  match configResult with
  | .error e => .httpError 400 ("400 - bad request - " ++ e)
  | .ok config =>
    let st1 := socketType config.IMAP.TLSMode
    match st1.2 with
    | some e => .httpError 400 ("400 - bad request - " ++ e)
    | none =>
      let st2 := socketType config.Submission.TLSMode
      match st2.2 with
      | some e => .httpError 400 ("400 - bad request - " ++ e)
      | none => .doc (autoconfDoc email domain config st1.1 st2.1)

/-- The inputs of the autoconfig handler it actually reads: the emailaddress
form value and the request host. -/
structure AutoconfRequest where
  emailaddress : String
  host : String
  deriving DecidableEq

/-- src/http/autoconf.go lines 58-180: the autoconfig handler.  The external
collaborators dns.ParseDomain, smtp.ParseAddress and admin.ClientConfigDomain
are parameters.  The second component is the list of metric increments the
handler performs: the deferred `metricAutoconf.WithLabelValues(addrDom).Inc()`
always runs exactly once, with the final value of `addrDom` — which the Go
function declares but never assigns, so it stays the zero value `""`. -/
def autoconfHandle (parseDomain : String → Except String Domain)
    (parseAddress : String → Except String Address)
    (clientConfigDomain : Domain → Except String ClientConfig)
    (r : AutoconfRequest) : AutoconfResult × List MetricInc :=
  let addrDom : String := ""
  let incs := [MetricInc.mk "mox_autoconf_request_total" addrDom]
  let email := r.emailaddress
  if email = "" then
    match parseDomain r.host with
    | .error _ =>
      (.httpError 400 ("400 - bad request - invalid domain: " ++ r.host), incs)
    | .ok d =>
      let domain : Domain :=
        ⟨dropPre d.ASCII "autoconfig.", dropPre d.Unicode "autoconfig."⟩
      (autoconfBuild "%EMAILADDRESS%" domain (clientConfigDomain domain), incs)
  else
    match parseAddress email with
    | .error _ =>
      (.httpError 400 "400 - bad request - invalid parameter emailaddress", incs)
    | .ok addr =>
      (autoconfBuild email addr.Domain (clientConfigDomain addr.Domain), incs)

/-- src/http/autoconf.go lines 338-344: the decoded Autodiscover request body. -/
structure autodiscoverRequest where
  EmailAddress : String
  AcceptableResponseSchema : String
  deriving DecidableEq

/-- src/http/autoconf.go lines 360-371: one Protocol element of the
Autodiscover response (the Go field `Type` is spelled `type` here). -/
structure autodiscoverProtocol where
  type : String
  Server : String
  Port : Nat
  DirectoryPort : Nat
  ReferralPort : Nat
  LoginName : String
  SSL : String
  Encryption : String
  SPA : String
  AuthRequired : String
  deriving DecidableEq

/-- src/http/autoconf.go lines 354-358: the Account element. -/
structure autodiscoverAccount where
  AccountType : String
  Action : String
  Protocol : List autodiscoverProtocol
  deriving DecidableEq

/-- src/http/autoconf.go lines 346-352 together with the XMLName assignments
at lines 261-264: the Autodiscover response with its two XML names. -/
structure autodiscoverResponse where
  XMLNameLocal : String
  XMLNameSpace : String
  ResponseXMLNameLocal : String
  ResponseXMLNameSpace : String
  Account : autodiscoverAccount
  deriving DecidableEq

/-- Outcome of the autodiscover handler. -/
inductive AutodiscoverResult where
  | httpError (status : Nat) (body : String)
  | doc (resp : autodiscoverResponse)
  deriving DecidableEq

/-- The inputs of the autodiscover handler it actually reads: the request
method and the outcome of XML-decoding the request body (`Except` carries the
decoder error; decoding is only attempted where the Go code calls it). -/
structure AutodiscoverHTTPRequest where
  method : String
  body : Except String autodiscoverRequest

/-- src/http/autoconf.go lines 192-296: the autodiscover handler.  The
external collaborators smtp.ParseAddress and admin.ClientConfigDomain are
parameters.  The second component is the list of metric increments: the
deferred `metricAutodiscover.WithLabelValues(addrDom).Inc()` always runs
exactly once with the final value of `addrDom`, which the Go function
declares but never assigns, so it stays the zero value `""`.  Note the
body-parse failure branch passes http.StatusMethodNotAllowed (405) to
http.Error while its message text says "400 - bad request", exactly as the
Go source does at line 207. -/
def autodiscoverHandle (parseAddress : String → Except String Address)
    (clientConfigDomain : Domain → Except String ClientConfig)
    (r : AutodiscoverHTTPRequest) : AutodiscoverResult × List MetricInc :=
  let addrDom : String := ""
  let incs := [MetricInc.mk "mox_autodiscover_request_total" addrDom]
  if r.method ≠ "POST" then
    (.httpError 405 "405 - method not allowed - post required", incs)
  else
    match r.body with
    | .error e =>
      (.httpError 405 ("400 - bad request - parsing autodiscover request: " ++ e), incs)
    | .ok req =>
      match parseAddress req.EmailAddress with
      | .error _ =>
        (.httpError 400 "400 - bad request - invalid parameter emailaddress", incs)
      | .ok addr =>
        match clientConfigDomain addr.Domain with
        | .error e => (.httpError 400 ("400 - bad request - " ++ e), incs)
        | .ok config =>
          let t1 := tlsmode config.IMAP.TLSMode
          match t1.2.2 with
          | some e => (.httpError 400 ("400 - bad request - " ++ e), incs)
          | none =>
            let t2 := tlsmode config.Submission.TLSMode
            match t2.2.2 with
            | some e => (.httpError 400 ("400 - bad request - " ++ e), incs)
            | none =>
              (.doc
                { XMLNameLocal := "Autodiscover"
                  XMLNameSpace :=
                    "http://schemas.microsoft.com/exchange/autodiscover/responseschema/2006"
                  ResponseXMLNameLocal := "Response"
                  ResponseXMLNameSpace :=
                    "http://schemas.microsoft.com/exchange/autodiscover/outlook/responseschema/2006a"
                  Account :=
                    { AccountType := "email"
                      Action := "settings"
                      Protocol :=
                        [⟨"IMAP", config.IMAP.Host.ASCII, config.IMAP.Port, 0, 0,
                          req.EmailAddress, t1.1, t1.2.1, "off", "on"⟩,
                         ⟨"SMTP", config.Submission.Host.ASCII, config.Submission.Port, 0, 0,
                          req.EmailAddress, t2.1, t2.2.1, "off", "on"⟩] } }, incs)

/-- strings.Split with separator "," as called at src/http/autoconf.go
line 389 (for a single-character separator Go's Split cuts around every
occurrence; on the empty string it yields one empty element, as
`List.splitOn` does). -/
def splitComma (s : String) : List String :=
  (s.data.splitOn ',').map fun cs => (⟨cs⟩ : String)

/-- strings.ReplaceAll for a non-empty pattern, as called at
src/http/autoconf.go lines 399-400: replace every non-overlapping occurrence
of `old`, scanning left to right.  `fuel` bounds the recursion; it starts at
the length of the subject string, which is enough because every step consumes
at least one character. -/
def replaceAllFuel (fuel : Nat) (old new : List Char) : List Char → List Char
  | [] => []
  | c :: rest =>
    match fuel with
    | 0 => c :: rest
    | fuel + 1 =>
      if old ≠ [] ∧ old.isPrefixOf (c :: rest) then
        new ++ replaceAllFuel fuel old new ((c :: rest).drop old.length)
      else
        c :: replaceAllFuel fuel old new rest

/-- String wrapper for `replaceAllFuel`. -/
def replaceAll (s old new : String) : String :=
  ⟨replaceAllFuel s.data.length old.data new.data s.data⟩

/-- The inputs of the mobileconfig handler it actually reads: the request
method and the `addresses` and `name` form values. -/
structure MobileconfigRequest where
  method : String
  addresses : String
  name : String
  deriving DecidableEq

/-- Outcome of the mobileconfig handler: an `http.Error`, or the profile
bytes together with the Content-Disposition header value. -/
inductive MobileconfigResult where
  | httpError (status : Nat) (body : String)
  | file (contentDisposition : String) (data : List Nat)
  deriving DecidableEq

/-- src/http/autoconf.go lines 375-405: the mobileconfig handler.  The
external profile builder `MobileConfig` (not part of the provided source
slice) is a parameter returning the profile bytes or an error. -/
def mobileconfigHandle
    (mobileConfig : List String → String → Except String (List Nat))
    (r : MobileconfigRequest) : MobileconfigResult :=
  if r.method ≠ "GET" then
    .httpError 405 "405 - method not allowed - get required"
  else
    let fullName := r.name
    let l := splitComma r.addresses
    if r.addresses = "" then
      .httpError 400 "400 - bad request - missing/empty field addresses"
    else
      match mobileConfig l fullName with
      | .error e => .httpError 400 ("400 - bad request - " ++ e)
      | .ok buf =>
        let filename0 := l.headD ""
        let filename1 := replaceAll filename0 "." "-"
        let filename2 := replaceAll filename1 "@" "-at-"
        let filename := "email-account-" ++ filename2 ++ ".mobileconfig"
        .file ("attachment; filename=\"" ++ filename ++ "\"") buf

/-- A concrete mail host, used by the witness theorems. -/
def hostEx : Domain := ⟨"mail.example.org", "mail.example.org"⟩

/-- A concrete mail domain, used by the witness theorems. -/
def domEx : Domain := ⟨"example.org", "example.org"⟩

/-- A concrete client configuration without alternate-port endpoints. -/
def cfgEx : ClientConfig :=
  ⟨⟨hostEx, 993, TLSModeImmediate, false⟩, ⟨hostEx, 587, TLSModeSTARTTLS, false⟩⟩

/-- A concrete client configuration with both alternate-port flags set. -/
def cfgExAlt : ClientConfig :=
  ⟨⟨hostEx, 993, TLSModeImmediate, true⟩, ⟨hostEx, 587, TLSModeSTARTTLS, true⟩⟩

/-- A concrete client configuration whose IMAP TLS mode 3 lies outside the
known enum. -/
def cfgBadIMAP : ClientConfig :=
  ⟨⟨hostEx, 993, 3, false⟩, ⟨hostEx, 587, TLSModeSTARTTLS, false⟩⟩

/-- A concrete dns.ParseDomain behaviour: accepts the one host the witnesses
use, rejects everything else. -/
def pdEx : String → Except String Domain := fun h =>
  if h = "autoconfig.example.org" then
    .ok ⟨"autoconfig.example.org", "autoconfig.example.org"⟩
  else .error "invalid host"

/-- A concrete smtp.ParseAddress behaviour: accepts user@example.org, rejects
everything else. -/
def paEx : String → Except String Address := fun e =>
  if e = "user@example.org" then .ok ⟨"user", domEx⟩ else .error "parse error"

/-- A concrete admin.ClientConfigDomain behaviour resolving every domain to
`cfgEx`. -/
def ccEx : Domain → Except String ClientConfig := fun _ => .ok cfgEx

/-- A concrete admin.ClientConfigDomain behaviour resolving every domain to
`cfgExAlt`. -/
def ccExAlt : Domain → Except String ClientConfig := fun _ => .ok cfgExAlt

/-- A concrete admin.ClientConfigDomain behaviour resolving every domain to
`cfgBadIMAP`. -/
def ccBad : Domain → Except String ClientConfig := fun _ => .ok cfgBadIMAP

/-- `TLSMode` values outside the known three-valued enum. -/
def unknownTLS (m : Nat) : Prop :=
  m ≠ TLSModeImmediate ∧ m ≠ TLSModeSTARTTLS ∧ m ≠ TLSModeNone

/-- A concrete MobileConfig profile-builder behaviour, used by the witness
theorems: always succeeds with a fixed byte list. -/
def mcEx : List String → String → Except String (List Nat) := fun _ _ => .ok [1, 2]

theorem socketType_unknown {m : Nat} (h : unknownTLS m) :
    socketType m = ("", some ("unknown tls mode " ++ toString m)) := by
  obtain ⟨h1, h2, h3⟩ := h
  simp [socketType, h1, h2, h3]

theorem tlsmode_unknown {m : Nat} (h : unknownTLS m) :
    tlsmode m = ("", "", some ("unknown tls mode " ++ toString m)) := by
  obtain ⟨h1, h2, h3⟩ := h
  simp [tlsmode, h1, h2, h3]

/-- Claim C1: for every canonical TLS mode the Thunderbird mapper returns
exactly Immediate→"SSL", StartTLS→"STARTTLS", None→"plain" (with a nil
error), the Microsoft mapper returns exactly Immediate→("on","TLS"),
StartTLS→("on",""), None→("off",""), and for any mode value outside these
three both mappers return a non-nil error. -/
theorem mapTLS_vocabulary :
    (socketType TLSModeImmediate = ("SSL", none)
      ∧ socketType TLSModeSTARTTLS = ("STARTTLS", none)
      ∧ socketType TLSModeNone = ("plain", none))
    ∧ (tlsmode TLSModeImmediate = ("on", "TLS", none)
      ∧ tlsmode TLSModeSTARTTLS = ("on", "", none)
      ∧ tlsmode TLSModeNone = ("off", "", none))
    ∧ (∀ m : Nat, m ≠ TLSModeImmediate → m ≠ TLSModeSTARTTLS → m ≠ TLSModeNone →
        (socketType m).2 ≠ none ∧ (tlsmode m).2.2 ≠ none) := by
  refine ⟨⟨rfl, rfl, rfl⟩, ⟨rfl, rfl, rfl⟩, ?_⟩
  intro m h1 h2 h3
  constructor
  · simp [socketType, h1, h2, h3]
  · simp [tlsmode, h1, h2, h3]

/-- Witness for C1 at the concrete out-of-enum mode 7. -/
theorem mapTLS_vocabulary_witness :
    ((7 : Nat) ≠ TLSModeImmediate ∧ (7 : Nat) ≠ TLSModeSTARTTLS ∧ (7 : Nat) ≠ TLSModeNone)
    ∧ ((socketType 7).2 ≠ none ∧ (tlsmode 7).2.2 ≠ none) :=
  ⟨⟨by decide, by decide, by decide⟩,
   mapTLS_vocabulary.2.2 7 (by decide) (by decide) (by decide)⟩

/-- Claim C2: in every synthesized autoconfig document the outgoing-server
list is the primary Submission entry followed, exactly when the alternate-port
flag is set, by a second entry on port 443 with socketType "SSL" and the same
host; with the flag clear the list has exactly one entry.  The incoming-server
list obeys the identical rule for the IMAP endpoint. -/
theorem autoconfig_alternate_port_entries
    (email : String) (domain : Domain) (config : ClientConfig) (resp : autoconfigResponse)
    (h : autoconfBuild email domain (.ok config) = .doc resp) :
    (resp.EmailProvider.OutgoingServers
      = [⟨"smtp", config.Submission.Host.ASCII, config.Submission.Port,
          (socketType config.Submission.TLSMode).1, email, "password-encrypted"⟩]
        ++ (if config.Submission.EnabledOnHTTPS then
              [⟨"smtp", config.Submission.Host.ASCII, 443, "SSL", email,
                "password-encrypted"⟩]
            else []))
    ∧ (config.Submission.EnabledOnHTTPS = false →
        resp.EmailProvider.OutgoingServers.length = 1)
    ∧ (resp.EmailProvider.IncomingServers
      = [⟨"imap", config.IMAP.Host.ASCII, config.IMAP.Port,
          (socketType config.IMAP.TLSMode).1, email, "password-encrypted"⟩]
        ++ (if config.IMAP.EnabledOnHTTPS then
              [⟨"imap", config.IMAP.Host.ASCII, 443, "SSL", email,
                "password-encrypted"⟩]
            else []))
    ∧ (config.IMAP.EnabledOnHTTPS = false →
        resp.EmailProvider.IncomingServers.length = 1) := by
  simp only [autoconfBuild] at h
  split at h
  · exact absurd h (by simp)
  · split at h
    · exact absurd h (by simp)
    · rw [AutoconfResult.doc.injEq] at h
      subst h
      refine ⟨by simp [autoconfDoc, socketType, TLSModeImmediate], ?_,
              by simp [autoconfDoc, socketType, TLSModeImmediate], ?_⟩
      · intro hf
        simp [autoconfDoc, hf]
      · intro hf
        simp [autoconfDoc, hf]

/-- Witness for C2: with both alternate-port flags set the outgoing list is
primary-then-443 entry; with both clear it has exactly one entry. -/
theorem autoconfig_alternate_port_entries_witness :
    ((autoconfDoc "user@example.org" domEx cfgExAlt "SSL" "STARTTLS").EmailProvider.OutgoingServers
      = [⟨"smtp", cfgExAlt.Submission.Host.ASCII, cfgExAlt.Submission.Port,
          (socketType cfgExAlt.Submission.TLSMode).1, "user@example.org", "password-encrypted"⟩]
        ++ (if cfgExAlt.Submission.EnabledOnHTTPS then
              [⟨"smtp", cfgExAlt.Submission.Host.ASCII, 443, "SSL", "user@example.org",
                "password-encrypted"⟩]
            else []))
    ∧ (autoconfDoc "user@example.org" domEx cfgEx "SSL" "STARTTLS").EmailProvider.OutgoingServers.length = 1 :=
  ⟨(autoconfig_alternate_port_entries "user@example.org" domEx cfgExAlt
      (autoconfDoc "user@example.org" domEx cfgExAlt "SSL" "STARTTLS") (by decide)).1,
   (autoconfig_alternate_port_entries "user@example.org" domEx cfgEx
      (autoconfDoc "user@example.org" domEx cfgEx "SSL" "STARTTLS") (by decide)).2.1 rfl⟩

/-- Claim C3: every successful Autodiscover response carries AccountType
"email", Action "settings" and exactly two Protocol entries — IMAP then SMTP —
each with the Microsoft-mapped ssl/encryption values of its endpoint,
LoginName equal to the literal requested address, SPA "off" and AuthRequired
"on"; no alternate-port Protocol entry is emitted, whatever the endpoints'
alternate-port flags are. -/
theorem autodiscover_account_shape
    (pa : String → Except String Address)
    (cc : Domain → Except String ClientConfig)
    (r : AutodiscoverHTTPRequest) (req : autodiscoverRequest)
    (addr : Address) (config : ClientConfig)
    (hm : r.method = "POST") (hb : r.body = .ok req)
    (hpa : pa req.EmailAddress = .ok addr)
    (hcc : cc addr.Domain = .ok config)
    (h1 : (tlsmode config.IMAP.TLSMode).2.2 = none)
    (h2 : (tlsmode config.Submission.TLSMode).2.2 = none) :
    (autodiscoverHandle pa cc r).1
      = .doc
        { XMLNameLocal := "Autodiscover"
          XMLNameSpace :=
            "http://schemas.microsoft.com/exchange/autodiscover/responseschema/2006"
          ResponseXMLNameLocal := "Response"
          ResponseXMLNameSpace :=
            "http://schemas.microsoft.com/exchange/autodiscover/outlook/responseschema/2006a"
          Account :=
            { AccountType := "email"
              Action := "settings"
              Protocol :=
                [⟨"IMAP", config.IMAP.Host.ASCII, config.IMAP.Port, 0, 0,
                  req.EmailAddress, (tlsmode config.IMAP.TLSMode).1,
                  (tlsmode config.IMAP.TLSMode).2.1, "off", "on"⟩,
                 ⟨"SMTP", config.Submission.Host.ASCII, config.Submission.Port, 0, 0,
                  req.EmailAddress, (tlsmode config.Submission.TLSMode).1,
                  (tlsmode config.Submission.TLSMode).2.1, "off", "on"⟩] } } := by
  simp [autodiscoverHandle, hm, hb, hpa, hcc, h1, h2]

/-- Witness for C3 with both alternate-port flags set: the response still has
exactly the two primary Protocol entries. -/
theorem autodiscover_account_shape_witness :
    cfgExAlt.IMAP.EnabledOnHTTPS = true
    ∧ cfgExAlt.Submission.EnabledOnHTTPS = true
    ∧ (autodiscoverHandle paEx ccExAlt ⟨"POST", .ok ⟨"user@example.org", ""⟩⟩).1
      = .doc
        { XMLNameLocal := "Autodiscover"
          XMLNameSpace :=
            "http://schemas.microsoft.com/exchange/autodiscover/responseschema/2006"
          ResponseXMLNameLocal := "Response"
          ResponseXMLNameSpace :=
            "http://schemas.microsoft.com/exchange/autodiscover/outlook/responseschema/2006a"
          Account :=
            { AccountType := "email"
              Action := "settings"
              Protocol :=
                [⟨"IMAP", "mail.example.org", 993, 0, 0, "user@example.org",
                  "on", "TLS", "off", "on"⟩,
                 ⟨"SMTP", "mail.example.org", 587, 0, 0, "user@example.org",
                  "on", "", "off", "on"⟩] } } :=
  ⟨rfl, rfl,
   autodiscover_account_shape paEx ccExAlt ⟨"POST", .ok ⟨"user@example.org", ""⟩⟩
     ⟨"user@example.org", ""⟩ ⟨"user", domEx⟩ cfgExAlt rfl rfl rfl rfl rfl rfl⟩

/-- Claim C4: with an empty emailaddress whose request host parses as a
domain, the handler continues with that domain with the literal leading
"autoconfig." label dropped from both its ASCII and Unicode forms and the
fixed placeholder identity; with a non-empty emailaddress that parses as an
address it continues with the address's domain and the literal address as
identity; host-parse failure and address-parse failure each answer 400.
`dropPre` removes exactly the literal prefix and leaves strings without the
prefix unchanged. -/
theorem autoconfig_normalizer :
    (∀ (pd : String → Except String Domain) (pa : String → Except String Address)
       (cc : Domain → Except String ClientConfig) (r : AutoconfRequest) (d : Domain),
       r.emailaddress = "" → pd r.host = .ok d →
       (autoconfHandle pd pa cc r).1
         = autoconfBuild "%EMAILADDRESS%"
             ⟨dropPre d.ASCII "autoconfig.", dropPre d.Unicode "autoconfig."⟩
             (cc ⟨dropPre d.ASCII "autoconfig.", dropPre d.Unicode "autoconfig."⟩))
    ∧ (∀ (pd : String → Except String Domain) (pa : String → Except String Address)
       (cc : Domain → Except String ClientConfig) (r : AutoconfRequest) (addr : Address),
       r.emailaddress ≠ "" → pa r.emailaddress = .ok addr →
       (autoconfHandle pd pa cc r).1
         = autoconfBuild r.emailaddress addr.Domain (cc addr.Domain))
    ∧ (∀ (pd : String → Except String Domain) (pa : String → Except String Address)
       (cc : Domain → Except String ClientConfig) (r : AutoconfRequest) (e : String),
       r.emailaddress = "" → pd r.host = .error e →
       (autoconfHandle pd pa cc r).1
         = .httpError 400 ("400 - bad request - invalid domain: " ++ r.host))
    ∧ (∀ (pd : String → Except String Domain) (pa : String → Except String Address)
       (cc : Domain → Except String ClientConfig) (r : AutoconfRequest) (e : String),
       r.emailaddress ≠ "" → pa r.emailaddress = .error e →
       (autoconfHandle pd pa cc r).1
         = .httpError 400 "400 - bad request - invalid parameter emailaddress")
    ∧ (∀ t : String, dropPre ("autoconfig." ++ t) "autoconfig." = t)
    ∧ (∀ s : String, ¬ "autoconfig.".data.isPrefixOf s.data →
        dropPre s "autoconfig." = s) := by
  refine ⟨?_, ?_, ?_, ?_, ?_, ?_⟩
  · intro pd pa cc r d he hd
    simp [autoconfHandle, he, hd]
  · intro pd pa cc r addr he ha
    simp [autoconfHandle, he, ha]
  · intro pd pa cc r e he hd
    simp [autoconfHandle, he, hd]
  · intro pd pa cc r e he ha
    simp [autoconfHandle, he, ha]
  · intro t
    unfold dropPre
    rw [if_pos]
    · show String.mk (("autoconfig." ++ t).data.drop "autoconfig.".data.length) = t
      rw [String.data_append, List.drop_left]
    · rw [String.data_append]
      rw [List.isPrefixOf_iff_prefix]
      exact List.prefix_append _ _
  · intro s h
    unfold dropPre
    rw [if_neg h]

/-- Witness for C4 on the spec's own examples: host autoconfig.example.org
with empty emailaddress, emailaddress user@example.org, an unparsable host,
an unparsable address, and a string without the prefix. -/
theorem autoconfig_normalizer_witness :
    ((autoconfHandle pdEx paEx ccEx ⟨"", "autoconfig.example.org"⟩).1
       = autoconfBuild "%EMAILADDRESS%" domEx (ccEx domEx))
    ∧ ((autoconfHandle pdEx paEx ccEx ⟨"user@example.org", "h"⟩).1
       = autoconfBuild "user@example.org" domEx (ccEx domEx))
    ∧ ((autoconfHandle pdEx paEx ccEx ⟨"", "???"⟩).1
       = .httpError 400 ("400 - bad request - invalid domain: " ++ "???"))
    ∧ ((autoconfHandle pdEx paEx ccEx ⟨"bogus", "h"⟩).1
       = .httpError 400 "400 - bad request - invalid parameter emailaddress")
    ∧ dropPre "example.org" "autoconfig." = "example.org" :=
  ⟨autoconfig_normalizer.1 pdEx paEx ccEx ⟨"", "autoconfig.example.org"⟩
     ⟨"autoconfig.example.org", "autoconfig.example.org"⟩ rfl rfl,
   autoconfig_normalizer.2.1 pdEx paEx ccEx ⟨"user@example.org", "h"⟩
     ⟨"user", domEx⟩ (by decide) rfl,
   autoconfig_normalizer.2.2.1 pdEx paEx ccEx ⟨"", "???"⟩ "invalid host" rfl rfl,
   autoconfig_normalizer.2.2.2.1 pdEx paEx ccEx ⟨"bogus", "h"⟩ "parse error"
     (by decide) rfl,
   autoconfig_normalizer.2.2.2.2.2 "example.org" (by decide)⟩

/-- Claim C5 counterexample: with an IMAP TLS mode of 3 — outside the known
enum — the autoconfig handler answers with HTTP status 400, not with the 500
the claim asserts. -/
theorem unknown_mode_answers_400_not_500 :
    (autoconfHandle pdEx paEx ccBad ⟨"user@example.org", "h"⟩).1
      = .httpError 400 "400 - bad request - unknown tls mode 3"
    ∧ (400 : Nat) ≠ 500 :=
  ⟨by decide, by decide⟩

/-- Claim C5 as amended: whenever a resolved endpoint's TLS mode falls outside
the known three-valued enum, both handlers fail the request with HTTP status
400 and emit no document. -/
theorem unknown_mode_fails_400 :
    (∀ (email : String) (domain : Domain) (config : ClientConfig),
       unknownTLS config.IMAP.TLSMode ∨ unknownTLS config.Submission.TLSMode →
       ∃ msg, autoconfBuild email domain (.ok config) = .httpError 400 msg)
    ∧ (∀ (pa : String → Except String Address)
         (cc : Domain → Except String ClientConfig)
         (r : AutodiscoverHTTPRequest) (req : autodiscoverRequest)
         (addr : Address) (config : ClientConfig),
       r.method = "POST" → r.body = .ok req →
       pa req.EmailAddress = .ok addr → cc addr.Domain = .ok config →
       (unknownTLS config.IMAP.TLSMode ∨ unknownTLS config.Submission.TLSMode) →
       ∃ msg, (autodiscoverHandle pa cc r).1 = .httpError 400 msg) := by
  constructor
  · intro email domain config h
    rcases h2 : (socketType config.IMAP.TLSMode).2 with _ | e1
    · rcases h3 : (socketType config.Submission.TLSMode).2 with _ | e2
      · exfalso
        rcases h with h | h
        · rw [socketType_unknown h] at h2
          simp at h2
        · rw [socketType_unknown h] at h3
          simp at h3
      · refine ⟨"400 - bad request - " ++ e2, ?_⟩
        simp [autoconfBuild, h2, h3]
    · refine ⟨"400 - bad request - " ++ e1, ?_⟩
      simp [autoconfBuild, h2]
  · intro pa cc r req addr config hm hb hpa hcc h
    rcases h2 : (tlsmode config.IMAP.TLSMode).2.2 with _ | e1
    · rcases h3 : (tlsmode config.Submission.TLSMode).2.2 with _ | e2
      · exfalso
        rcases h with h | h
        · rw [tlsmode_unknown h] at h2
          simp at h2
        · rw [tlsmode_unknown h] at h3
          simp at h3
      · refine ⟨"400 - bad request - " ++ e2, ?_⟩
        simp [autodiscoverHandle, hm, hb, hpa, hcc, h2, h3]
    · refine ⟨"400 - bad request - " ++ e1, ?_⟩
      simp [autodiscoverHandle, hm, hb, hpa, hcc, h2]

/-- Witness for the amended C5 at the concrete configuration with IMAP TLS
mode 3. -/
theorem unknown_mode_fails_400_witness :
    (unknownTLS cfgBadIMAP.IMAP.TLSMode ∨ unknownTLS cfgBadIMAP.Submission.TLSMode)
    ∧ (∃ msg, autoconfBuild "user@example.org" domEx (.ok cfgBadIMAP)
        = .httpError 400 msg)
    ∧ (∃ msg, (autodiscoverHandle paEx ccBad ⟨"POST", .ok ⟨"user@example.org", ""⟩⟩).1
        = .httpError 400 msg) :=
  ⟨Or.inl ⟨by decide, by decide, by decide⟩,
   unknown_mode_fails_400.1 "user@example.org" domEx cfgBadIMAP
     (Or.inl ⟨by decide, by decide, by decide⟩),
   unknown_mode_fails_400.2 paEx ccBad ⟨"POST", .ok ⟨"user@example.org", ""⟩⟩
     ⟨"user@example.org", ""⟩ ⟨"user", domEx⟩ cfgBadIMAP rfl rfl rfl rfl
     (Or.inl ⟨by decide, by decide, by decide⟩)⟩

/-- Claim C6: the Go source passes http.StatusMethodNotAllowed (405) for a
body-parse failure even though its own message text says "400 - bad request";
address-parse failure does answer 400.  Evaluated at concrete inputs. -/
theorem autodiscover_body_parse_status_bug :
    (autodiscoverHandle paEx ccEx ⟨"POST", .error "bad xml"⟩).1
      = .httpError 405 "400 - bad request - parsing autodiscover request: bad xml"
    ∧ (autodiscoverHandle paEx ccEx ⟨"POST", .ok ⟨"not-an-address", ""⟩⟩).1
      = .httpError 400 "400 - bad request - invalid parameter emailaddress"
    ∧ (405 : Nat) ≠ 400 :=
  ⟨by decide, by decide, by decide⟩

/-- Claim C7: any non-POST Autodiscover request is answered 405, and the
answer is the same whatever the body parse outcome would be — the body is
never consulted. -/
theorem autodiscover_non_post_405
    (pa : String → Except String Address)
    (cc : Domain → Except String ClientConfig)
    (method : String) (body : Except String autodiscoverRequest)
    (h : method ≠ "POST") :
    (autodiscoverHandle pa cc ⟨method, body⟩).1
      = .httpError 405 "405 - method not allowed - post required" := by
  simp [autodiscoverHandle, h]

/-- Witness for C7: a GET is answered 405 whether the body would parse or
not. -/
theorem autodiscover_non_post_405_witness :
    ("GET" : String) ≠ "POST"
    ∧ (autodiscoverHandle paEx ccEx ⟨"GET", .error "unread body"⟩).1
        = .httpError 405 "405 - method not allowed - post required"
    ∧ (autodiscoverHandle paEx ccEx ⟨"GET", .ok ⟨"user@example.org", ""⟩⟩).1
        = .httpError 405 "405 - method not allowed - post required" :=
  ⟨by decide,
   autodiscover_non_post_405 paEx ccEx "GET" (.error "unread body") (by decide),
   autodiscover_non_post_405 paEx ccEx "GET" (.ok ⟨"user@example.org", ""⟩) (by decide)⟩

/-- Claim C8: a non-GET mobileconfig request is answered 405; an empty
addresses parameter is answered 400 with no profile bytes; on success the
Content-Disposition value is exactly attachment; filename="email-account-
(first address with '.' replaced by '-' and '@' by '-at-').mobileconfig". -/
theorem mobileconfig_contract :
    (∀ (mc : List String → String → Except String (List Nat)) (r : MobileconfigRequest),
       r.method ≠ "GET" →
       mobileconfigHandle mc r = .httpError 405 "405 - method not allowed - get required")
    ∧ (∀ (mc : List String → String → Except String (List Nat)) (r : MobileconfigRequest),
       r.method = "GET" → r.addresses = "" →
       mobileconfigHandle mc r
         = .httpError 400 "400 - bad request - missing/empty field addresses")
    ∧ (∀ (mc : List String → String → Except String (List Nat))
         (r : MobileconfigRequest) (buf : List Nat),
       r.method = "GET" → r.addresses ≠ "" →
       mc (splitComma r.addresses) r.name = .ok buf →
       mobileconfigHandle mc r
         = .file ("attachment; filename=\""
             ++ ("email-account-"
                 ++ replaceAll (replaceAll ((splitComma r.addresses).headD "") "." "-")
                      "@" "-at-"
                 ++ ".mobileconfig")
             ++ "\"") buf) := by
  refine ⟨?_, ?_, ?_⟩
  · intro mc r h
    simp [mobileconfigHandle, h]
  · intro mc r hm ha
    simp [mobileconfigHandle, hm, ha]
  · intro mc r buf hm ha hmc
    simp [mobileconfigHandle, hm, ha, hmc]

/-- Witness for C8 at concrete inputs, including the sanitized filename for
first address john.doe@example.org. -/
theorem mobileconfig_contract_witness :
    ("POST" : String) ≠ "GET"
    ∧ mobileconfigHandle mcEx ⟨"POST", "a@b.c", "n"⟩
        = .httpError 405 "405 - method not allowed - get required"
    ∧ mobileconfigHandle mcEx ⟨"GET", "", "n"⟩
        = .httpError 400 "400 - bad request - missing/empty field addresses"
    ∧ mobileconfigHandle mcEx ⟨"GET", "john.doe@example.org,b@y.test", "John"⟩
        = .file "attachment; filename=\"email-account-john-doe-at-example-org.mobileconfig\"" [1, 2] :=
  ⟨by decide,
   mobileconfig_contract.1 mcEx ⟨"POST", "a@b.c", "n"⟩ (by decide),
   mobileconfig_contract.2.1 mcEx ⟨"GET", "", "n"⟩ rfl rfl,
   mobileconfig_contract.2.2 mcEx ⟨"GET", "john.doe@example.org,b@y.test", "John"⟩
     [1, 2] rfl (by decide) rfl⟩

/-- Claim C9: both handlers do increment their request counter exactly once
per request, but the "domain" label is always the empty string: the Go
`addrDom` variable captured by the deferred increment is declared and never
assigned, so the counter is not per-domain.  Evaluated at a request whose
domain is example.org. -/
theorem metric_domain_label_bug :
    (autoconfHandle pdEx paEx ccEx ⟨"user@example.org", "autoconfig.example.org"⟩).2
      = [⟨"mox_autoconf_request_total", ""⟩]
    ∧ (autodiscoverHandle paEx ccEx ⟨"POST", .ok ⟨"user@example.org", ""⟩⟩).2
      = [⟨"mox_autodiscover_request_total", ""⟩]
    ∧ ("" : String) ≠ "example.org" :=
  ⟨by decide, by decide, by decide⟩

/-- Claim C10: the error discarded when mapping the alternate-port entries is
nil — `socketType` applied to Immediate returns ("SSL", nil) — so whenever an
alternate-port flag is set, the appended entry's socketType is "SSL", never
the empty string. -/
theorem alternate_entries_socketType_SSL :
    socketType TLSModeImmediate = ("SSL", none)
    ∧ (∀ (email : String) (domain : Domain) (config : ClientConfig)
         (resp : autoconfigResponse),
        autoconfBuild email domain (.ok config) = .doc resp →
        (config.IMAP.EnabledOnHTTPS = true →
          resp.EmailProvider.IncomingServers[1]?
            = some ⟨"imap", config.IMAP.Host.ASCII, 443, "SSL", email,
                "password-encrypted"⟩)
        ∧ (config.Submission.EnabledOnHTTPS = true →
          resp.EmailProvider.OutgoingServers[1]?
            = some ⟨"smtp", config.Submission.Host.ASCII, 443, "SSL", email,
                "password-encrypted"⟩)) := by
  refine ⟨rfl, ?_⟩
  intro email domain config resp h
  simp only [autoconfBuild] at h
  split at h
  · exact absurd h (by simp)
  · split at h
    · exact absurd h (by simp)
    · rw [AutoconfResult.doc.injEq] at h
      subst h
      constructor
      · intro hf
        simp [autoconfDoc, hf, socketType, TLSModeImmediate]
      · intro hf
        simp [autoconfDoc, hf, socketType, TLSModeImmediate]

/-- Witness for C10 at the configuration with both alternate-port flags
set. -/
theorem alternate_entries_socketType_SSL_witness :
    cfgExAlt.IMAP.EnabledOnHTTPS = true
    ∧ (autoconfDoc "user@example.org" domEx cfgExAlt "SSL" "STARTTLS").EmailProvider.IncomingServers[1]?
      = some ⟨"imap", cfgExAlt.IMAP.Host.ASCII, 443, "SSL", "user@example.org",
          "password-encrypted"⟩ :=
  ⟨rfl,
   (alternate_entries_socketType_SSL.2 "user@example.org" domEx cfgExAlt
      (autoconfDoc "user@example.org" domEx cfgExAlt "SSL" "STARTTLS") (by decide)).1 rfl⟩

end Mox
